import Mathlib

/-!
Verification of the LLM client in this repository, centred on the Gemini
service (`services/geminiService.ts`, the file whose exported entry point is
`generateResponse`).  The definitions below are a shallow embedding of that
function: the streaming decode loop (lines 104-137), the HTTP status handling
(lines 80-93), the empty-response check (lines 151-153) and the catch-block
error classification (lines 156-212).  `part_001` of the sources is an earlier
copy of the same service with identical logic in all the places the claims
touch; the embedding follows `part_000`.

Modelling conventions:
* JavaScript strings are Lean `String`s.  The inputs we evaluate on are ASCII
  or fixed literals, where `String.trim`, `String.drop`, `String.splitOn` and
  substring search agree with their JavaScript counterparts (`trim`,
  `slice(6)`, `split('\n')`, `includes`).
* `JSON.parse` plus the schema navigation
  `parsed.candidates?.[0]?.content?.parts?.map(p => p.text).join('') || ''`
  is a library call, not repository code; it is abstracted as a parameter
  `extract : String → Option String` (`none` models a parse throw, `some t`
  models successful extraction of the concatenated text, possibly empty).
  Concrete instantiations used in evaluations follow real JSON semantics on
  the exact payload strings involved.
* The transport is modelled by an environment: the outcome of `fetch`, the
  decoded text of each successive `reader.read()` (ASCII chunks, where
  `TextDecoder.decode` is the identity), and the values successive
  `performance.now()` calls would return.
* The caller-supplied callback `onStreamChunk` is modelled by collecting the
  sequence of its invocations as a list of events.
-/

namespace GeminiClient

/-- One invocation of `onStreamChunk(newChunk, fullText, isComplete)`. -/
structure Event where
  newChunk : String
  fullText : String
  isComplete : Bool
deriving DecidableEq, Repr

/-- A JavaScript thrown value: either an `Error` with a message (the only kind
the service itself throws) or some non-`Error` value, which the catch block
distinguishes via `instanceof`. -/
inductive Thrown where
  | err (msg : String)
  | nonError
deriving DecidableEq, Repr

/-- The `GeminiResponse` result shape of `generateResponse`:
`{ text, durationMs, error? }`. -/
structure GeminiResponse where
  text : String
  durationMs : Int
  error : Option String
deriving DecidableEq, Repr

/-- An HTTP response as `generateResponse` observes it through `fetch`. -/
structure HttpResp where
  /-- `response.status`. -/
  status : Nat
  /-- `response.statusText`. -/
  statusText : String
  /-- `errorData.error?.message` after `response.json().catch(() => ({}))` on
  the non-ok path: `none` models both a body that fails to parse and a parsed
  body without that field. -/
  errorMessage : Option String
  /-- whether `response.body` is non-null. -/
  bodyPresent : Bool
  /-- decoded text of each successive successful `reader.read()`; the transport
  reports `done` after the last one. -/
  chunks : List String
  /-- the non-streaming path: outcome of `await response.json()` followed by
  the candidates/parts text extraction (with its `|| ''` normalisation);
  `.error t` models `response.json()` rejecting with `t`. -/
  jsonText : Except Thrown String

/-- `response.ok`: status in the 2xx range. -/
def HttpResp.ok (r : HttpResp) : Bool :=
  decide (200 ≤ r.status) && decide (r.status < 300)

/-- Outcome of `await fetch(...)`: rejection (network failure) or a response. -/
inductive FetchOutcome where
  | reject (t : Thrown)
  | resp (r : HttpResp)

/-- The external world of one call: JSON extraction semantics, the transport,
and the wall clock.  `t0` is `performance.now()` at entry (line 35), `tHeader`
its value at line 97 (right after the status check, before the body is
consumed), `tCatch` its value inside the catch block (line 158), and
`tComplete` the wall-clock instant at which the call actually finishes
consuming the stream and returns; the clock is monotone, so
`t0 ≤ tHeader ≤ tComplete`. -/
structure Env where
  extract : String → Option String
  fetch : FetchOutcome
  t0 : Int
  tHeader : Int
  tCatch : Int
  tComplete : Int

/-- The arguments of `generateResponse`; `streaming` records whether the
optional `onStreamChunk` callback was supplied. -/
structure Args where
  prompt : String
  modelName : String
  systemInstruction : Option String
  shouldUseReducedCapacity : Bool
  hasImagePart : Bool
  customBaseUrl : Option String
  apiKey : Option String
  streaming : Bool

/-- JavaScript `String.prototype.trim`: whitespace stripped from both ends.
Implemented over the character list so that it evaluates inside the kernel;
`Char.isWhitespace` covers space, tab, CR and LF, which agrees with the
JavaScript notion on every string this development evaluates. -/
def jsTrim (s : String) : String :=
  String.mk (((s.data.dropWhile Char.isWhitespace).reverse.dropWhile
    Char.isWhitespace).reverse)

/-- JavaScript `String.prototype.startsWith`. -/
def jsStartsWith (s pre : String) : Bool :=
  pre.data.isPrefixOf s.data

/-- JavaScript `String.prototype.slice(n)` for a non-negative `n`: drop the
first `n` characters (the strings it is applied to are prefix-checked against
the ASCII `"data: "` first, where code units and characters coincide). -/
def jsSlice (s : String) (n : Nat) : String :=
  String.mk (s.data.drop n)

/-- Helper for `jsSplitLines`: `acc` is the current line, reversed. -/
def jsSplitLinesAux : List Char → List Char → List String
  | [], acc => [String.mk acc.reverse]
  | c :: rest, acc =>
    if c = '\n' then String.mk acc.reverse :: jsSplitLinesAux rest []
    else jsSplitLinesAux rest (c :: acc)

/-- JavaScript `String.prototype.split('\n')`: the list of segments between
newline characters, keeping empty segments (so `"a\n"` yields `["a", ""]` and
`""` yields `[""]`). -/
def jsSplitLines (s : String) : List String :=
  jsSplitLinesAux s.data []

/-- JavaScript `a || b` on strings with `a` optional:
`errorData.error?.message || response.statusText`. -/
def jsOrElse (o : Option String) (fb : String) : String :=
  match o with
  | some m => if m = "" then fb else m
  | none => fb

/-- JavaScript `String.prototype.includes` (substring test), used by the catch
block's `error.message.includes(...)` checks. -/
def strIncludes (s pat : String) : Bool :=
  go pat.data s.data
where
  /-- True iff `needle` occurs contiguously in the second list. -/
  go (needle : List Char) : List Char → Bool
    | [] => needle.isEmpty
    | c :: rest => needle.isPrefixOf (c :: rest) || go needle rest

/-- The inner `for (const line of lines)` loop of the streaming path
(lines 112-136): trim each line, skip lines without the `"data: "` prefix, on
the `"[DONE]"` sentinel fire the terminal callback and `break` (abandoning the
remaining lines of this chunk only), otherwise extract the text, and on
non-empty text append it to `fullText` and fire a progress callback.  Returns
the updated `fullText` and the callback invocations, in order. -/
def processLines (extract : String → Option String) :
    List String → String → String × List Event
  | [], fullText => (fullText, [])
  | line :: rest, fullText =>
    let trimmed := jsTrim line
    if jsStartsWith trimmed "data: " then
      let jsonStr := jsSlice trimmed 6
      if jsonStr = "[DONE]" then
        (fullText, [⟨"", fullText, true⟩])
      else
        match extract jsonStr with
        | none => processLines extract rest fullText
        | some text =>
          if text = "" then
            processLines extract rest fullText
          else
            let newFull := fullText ++ text
            let res := processLines extract rest newFull
            (res.1, ⟨text, newFull, false⟩ :: res.2)
    else
      processLines extract rest fullText

/-- The outer `while (true)` read loop of the streaming path (lines 105-137):
each transport read is decoded and split on `'\n'`, and the lines are processed
by `processLines`; the loop ends when the transport reports `done`.  Note that
the source's `break` on the sentinel only leaves the inner `for` loop, so the
`while` loop goes on to the next read. -/
def processStream (extract : String → Option String) :
    List String → String → String × List Event
  | [], fullText => (fullText, [])
  | chunk :: restChunks, fullText =>
    let res := processLines extract (jsSplitLines chunk) fullText
    let res2 := processStream extract restChunks res.1
    (res2.1, res.2 ++ res2.2)

/-- `!apiKey?.trim()` is falsy exactly when the key is present with a
non-whitespace character (line 39). -/
def keyProvided (apiKey : Option String) : Bool :=
  match apiKey with
  | none => false
  | some k => jsTrim k ≠ ""

/-- The message thrown by the non-ok status handling (lines 80-93). -/
def statusThrowMsg (status : Nat) (modelName em : String) : String :=
  if status = 401 then "API密钥无效或已过期: " ++ em
  else if status = 429 then "API调用频率超限: " ++ em
  else if status = 404 then "模型不存在或无权访问: " ++ modelName
  else "Gemini API 错误 (" ++ toString status ++ "): " ++ em

/-- The message thrown when the final text is empty or whitespace-only
(line 152). -/
def emptyRespMsg : String := "AI 响应为空，请检查模型配置或重试。"

/-- The message thrown when no usable API key is configured (line 40). -/
def noKeyMsg : String := "API密钥未设置。请配置您的 Gemini API 密钥。"

/-- Everything inside the `try` block (lines 38-155).  Returns the outcome
(`.ok` the success result, `.error` the thrown value), the list of callback
invocations that happened on the way, and whether `fetch` was reached.
Request-body and URL assembly (lines 43-71) are pure data construction no
claim depends on and are not replayed here. -/
def tryBody (a : Args) (env : Env) :
    Except Thrown GeminiResponse × List Event × Bool :=
  if keyProvided a.apiKey then
    match env.fetch with
    | .reject t => (.error t, [], true)
    | .resp r =>
      if r.ok then
        let durationMs := env.tHeader - env.t0
        if a.streaming && r.bodyPresent then
          let res := processStream env.extract r.chunks ""
          if jsTrim res.1 = "" then
            (.error (.err emptyRespMsg), res.2, true)
          else
            (.ok ⟨res.1, durationMs, none⟩, res.2, true)
        else
          match r.jsonText with
          | .error t => (.error t, [], true)
          | .ok s =>
            if jsTrim s = "" then
              (.error (.err emptyRespMsg), [], true)
            else
              (.ok ⟨s, durationMs, none⟩, [], true)
      else
        let em := jsOrElse r.errorMessage r.statusText
        (.error (.err (statusThrowMsg r.status a.modelName em)), [], true)
  else
    (.error (.err noKeyMsg), [], false)

/-- The catch block (lines 156-212): classify the thrown value by substring
matching on its message and produce a `GeminiResponse` with a localized text
and a machine-readable tag. -/
def catchHandler (t : Thrown) (modelName : String) (durationMs : Int) :
    GeminiResponse :=
  match t with
  | .nonError => ⟨"与 Gemini 通信时发生未知错误。", durationMs, some "Unknown Gemini error"⟩
  | .err msg =>
    if strIncludes msg "API密钥" || strIncludes msg "401" || strIncludes msg "Unauthorized" then
      ⟨"API密钥无效或已过期。请检查您的 Gemini API 密钥配置。", durationMs, some "API key not valid"⟩
    else if strIncludes msg "429" || strIncludes msg "Rate limit" then
      ⟨"API调用频率超限，请稍后重试。", durationMs, some "Rate limit exceeded"⟩
    else if strIncludes msg "404" || strIncludes msg "模型" then
      ⟨"模型 " ++ modelName ++ " 不存在或无权访问。请检查模型名称或 API 权限。", durationMs,
        some "Model not found"⟩
    else if strIncludes msg "网络" || strIncludes msg "fetch" then
      ⟨"网络连接错误，请检查网络后重试。", durationMs, some "Network error"⟩
    else
      ⟨"与 Gemini 通信时出错: " ++ msg, durationMs, some msg⟩

/-- The observable outcome of one call to `generateResponse`: the returned
`GeminiResponse`, the `onStreamChunk` invocations in order, and whether an
HTTP request was issued. -/
structure RunOutcome where
  result : GeminiResponse
  events : List Event
  fetched : Bool
deriving DecidableEq, Repr

/-- The whole of `generateResponse`: run the `try` body and, if it throws,
convert the thrown value through the catch block, with the duration measured
at the catch (line 158). -/
def generateResponse (a : Args) (env : Env) : RunOutcome :=
  match tryBody a env with
  | (.ok r, evs, f) => ⟨r, evs, f⟩
  | (.error t, evs, f) => ⟨catchHandler t a.modelName (env.tCatch - env.t0), evs, f⟩

/-! ## Concrete inputs used in evaluations

`jHi` is a real Gemini streaming payload; `JSON.parse` succeeds on it and the
candidates/parts navigation extracts `"Hi"`.  `exC1` is the corresponding
instantiation of the extraction parameter: it behaves as real JSON extraction
does on every string it is ever applied to in the evaluations below (`jHi`
itself, and no other string reaches it). -/

/-- The payload `{"candidates":[{"content":{"parts":[{"text":"Hi"}]}}]}`. -/
def jHi : String :=
  "\x7b\"candidates\":[\x7b\"content\":\x7b\"parts\":[\x7b\"text\":\"Hi\"\x7d]\x7d\x7d]\x7d"

/-- JSON extraction semantics for the evaluations: exactly the payload `jHi`
parses and yields `"Hi"`; every other string that could reach it (single
characters, payload fragments) is malformed JSON. -/
def exC1 : String → Option String :=
  fun p => if p = jHi then some "Hi" else none

/-- One complete SSE frame carrying the text `"Hi"`, newline-terminated. -/
def oneFrame : String := "data: " ++ jHi ++ "\n"

/-- The same byte sequence delivered one byte per transport read (the frame is
ASCII, so one byte is one character and `TextDecoder.decode` is the
identity). -/
def explode (s : String) : List String :=
  s.data.map (fun c => String.mk [c])

/-- A non-streaming call with a valid key. -/
def baseArgs : Args :=
  ⟨"hello", "gemini-pro", none, false, false, none, some "k123", false⟩

/-- The same call with the `onStreamChunk` callback supplied. -/
def argsStream : Args :=
  ⟨"hello", "gemini-pro", none, false, false, none, some "k123", true⟩

/-- A call whose API key is whitespace-only. -/
def argsBadKey : Args :=
  ⟨"hello", "gemini-pro", none, false, false, none, some "   ", false⟩

/-- Environment for C3: HTTP 200, non-streaming body whose extracted text is
empty (for instance `{"candidates":[]}`). -/
def envC3 : Env :=
  ⟨fun _ => none, .resp ⟨200, "OK", none, false, [], .ok ""⟩, 0, 5, 7, 9⟩

/-- Environment for C4: HTTP 429 whose body fails to parse (`errorData = {}`)
and whose status text is the standard `Too Many Requests`. -/
def envC4 : Env :=
  ⟨fun _ => none, .resp ⟨429, "Too Many Requests", none, false, [], .ok ""⟩, 0, 5, 7, 9⟩

/-- Environment for C2: a streaming response whose transport delivers two
reads, each containing one sentinel frame. -/
def envC2 : Env :=
  ⟨fun _ => none,
    .resp ⟨200, "OK", none, true, ["data: [DONE]\n", "data: [DONE]\n"], .ok ""⟩,
    0, 5, 7, 9⟩

/-- Environment for C5: a streaming response delivering a sentinel frame in
the first read and a text-bearing frame in the second. -/
def envC5 : Env :=
  ⟨exC1, .resp ⟨200, "OK", none, true, ["data: [DONE]\n", oneFrame], .ok ""⟩,
    0, 5, 7, 9⟩

/-- Environment for C9: a successful streaming call; the headers arrive at
time 5 and the stream is fully consumed at time 10. -/
def envC9 : Env :=
  ⟨exC1, .resp ⟨200, "OK", none, true, [oneFrame], .ok ""⟩, 0, 5, 7, 10⟩

/-- An arbitrary healthy environment, used with `argsBadKey`. -/
def envAny : Env :=
  ⟨fun _ => none, .resp ⟨200, "OK", none, false, [], .ok "hi"⟩, 0, 5, 7, 9⟩

/-! ## Helper lemmas -/

/-- A string with a non-empty left part of an append is non-empty. -/
theorem append_ne_empty_of_left (s t : String) (hs : s ≠ "") : s ++ t ≠ "" := by
  intro h
  apply hs
  have h2 : s.data ++ t.data = ([] : List Char) := by
    have h3 := congrArg String.data h
    rw [String.data_append] at h3
    exact h3
  exact String.ext (List.append_eq_nil.mp h2).1

/-- The catch block always supplies a non-empty fallback text. -/
theorem catchHandler_text_ne_empty (t : Thrown) (m : String) (d : Int) :
    (catchHandler t m d).text ≠ "" := by
  cases t with
  | nonError =>
    show ("与 Gemini 通信时发生未知错误。" : String) ≠ ""
    decide
  | err msg =>
    unfold catchHandler
    dsimp only
    split
    · show ("API密钥无效或已过期。请检查您的 Gemini API 密钥配置。" : String) ≠ ""
      decide
    split
    · show ("API调用频率超限，请稍后重试。" : String) ≠ ""
      decide
    split
    · show "模型 " ++ m ++ " 不存在或无权访问。请检查模型名称或 API 权限。" ≠ ""
      exact append_ne_empty_of_left _ _ (append_ne_empty_of_left "模型 " m (by decide))
    split
    · show ("网络连接错误，请检查网络后重试。" : String) ≠ ""
      decide
    · show "与 Gemini 通信时出错: " ++ msg ≠ ""
      exact append_ne_empty_of_left "与 Gemini 通信时出错: " msg (by decide)

/-- The catch block always attaches a machine-readable tag. -/
theorem catchHandler_error_isSome (t : Thrown) (m : String) (d : Int) :
    (catchHandler t m d).error.isSome = true := by
  cases t with
  | nonError => rfl
  | err msg =>
    unfold catchHandler
    dsimp only
    split
    · rfl
    split
    · rfl
    split
    · rfl
    split
    · rfl
    · rfl

/-- The catch block returns exactly the duration it is given. -/
theorem catchHandler_durationMs (t : Thrown) (m : String) (d : Int) :
    (catchHandler t m d).durationMs = d := by
  cases t with
  | nonError => rfl
  | err msg =>
    unfold catchHandler
    dsimp only
    split
    · rfl
    split
    · rfl
    split
    · rfl
    split
    · rfl
    · rfl

/-- Inversion for the success path of the try body: a successful result always
carries no error tag, a final text that does not trim to empty, and the
duration taken at line 97, right after the status check. -/
theorem tryBody_ok_shape (a : Args) (env : Env) (r : GeminiResponse)
    (evs : List Event) (f : Bool) (h : tryBody a env = (.ok r, evs, f)) :
    r.error = none ∧ jsTrim r.text ≠ "" ∧ r.durationMs = env.tHeader - env.t0 := by
  unfold tryBody at h
  dsimp only at h
  split at h
  · split at h
    · simp at h
    · split at h
      · split at h
        · split at h
          · simp at h
          · rename_i hne
            simp only [Prod.mk.injEq, Except.ok.injEq] at h
            obtain ⟨h1, -, -⟩ := h
            subst h1
            exact ⟨rfl, hne, rfl⟩
        · split at h
          · simp at h
          · split at h
            · simp at h
            · rename_i hne
              simp only [Prod.mk.injEq, Except.ok.injEq] at h
              obtain ⟨h1, -, -⟩ := h
              subst h1
              exact ⟨rfl, hne, rfl⟩
      · simp at h
  · simp at h

/-! ## Claim theorems -/

/-- C1: the decode loop is NOT chunk-boundary independent.  The same byte
sequence `oneFrame` (one complete `data:` frame) delivered as a single
transport read yields the fragment `"Hi"` and final text `"Hi"`, while the
identical bytes delivered one byte per read yield no fragments and final text
`""`: each read is line-split in isolation, so a frame split across reads is
lost.  This refutes the idempotence property as a statement about the source
loop. -/
theorem chunk_split_loses_fragments :
    processStream exC1 [oneFrame] "" = ("Hi", [⟨"Hi", "Hi", false⟩]) ∧
    processStream exC1 (explode oneFrame) "" = ("", []) := by
  constructor
  · decide
  · decide

/-- C2: the terminal callback is NOT exactly-once.  A stream delivering two
sentinel frames in two transport reads makes the loop invoke the callback
with an empty fragment and the completion flag set twice: the `break` on the
sentinel only leaves the per-read line loop. -/
theorem sentinel_terminal_fires_twice :
    (generateResponse argsStream envC2).events
      = [⟨"", "", true⟩, ⟨"", "", true⟩] := by
  decide

/-- C3: an empty final text is NOT classified as an empty-response category.
With an HTTP 200 whose body yields no text, the thrown empty-response message
contains the substring 模型, so the catch block classifies it as the
model-not-found category and even reports the model as missing. -/
theorem empty_response_tagged_model_not_found :
    (generateResponse baseArgs envC3).result.error = some "Model not found" ∧
    (generateResponse baseArgs envC3).result.text
      = "模型 gemini-pro 不存在或无权访问。请检查模型名称或 API 权限。" := by
  constructor
  · decide
  · decide

/-- C4: HTTP 429 does NOT map to the rate-limit category regardless of body.
With an empty error body, the thrown message is the Chinese
API调用频率超限 text followed by the status text, which contains neither
`429` nor `Rate limit`, so the catch block falls through to the generic
branch and tags the result with the raw message. -/
theorem http429_not_tagged_rate_limit :
    (generateResponse baseArgs envC4).result.error
        = some "API调用频率超限: Too Many Requests" ∧
    (generateResponse baseArgs envC4).result.error
        ≠ some "Rate limit exceeded" := by
  constructor
  · decide
  · decide

/-- C5: the sentinel does NOT end the decode loop immediately.  After a
sentinel in the first transport read, a text frame in the second read is
still processed: the run fires a progress callback carrying `"Hi"` after the
terminal callback, and the final accumulated text is `"Hi"`. -/
theorem frames_processed_after_sentinel :
    (generateResponse argsStream envC5).events
        = [⟨"", "", true⟩, ⟨"Hi", "Hi", false⟩] ∧
    (generateResponse argsStream envC5).result.text = "Hi" := by
  constructor
  · decide
  · decide

/-- C6: a frame whose payload is malformed JSON (the extraction throws) is
skipped: deleting that line from the decode loop input leaves the accumulated
text and the entire sequence of callback invocations unchanged, wherever the
line occurs, so every subsequent well-formed event is processed exactly as
before and the malformed frame never aborts processing. -/
theorem malformed_frame_skipped (extract : String → Option String)
    (pre post : List String) (line : String) (fullText : String)
    (hp : jsStartsWith (jsTrim line) "data: " = true)
    (hd : jsSlice (jsTrim line) 6 ≠ "[DONE]")
    (hm : extract (jsSlice (jsTrim line) 6) = none) :
    processLines extract (pre ++ line :: post) fullText =
      processLines extract (pre ++ post) fullText := by
  induction pre generalizing fullText with
  | nil =>
    simp only [List.nil_append]
    conv_lhs => rw [processLines]
    dsimp only
    rw [hp]
    simp only [if_true]
    rw [if_neg hd, hm]
  | cons l ls ih =>
    simp only [List.cons_append]
    rw [processLines, processLines]
    dsimp only
    split
    · split
      · rfl
      · split
        · exact ih fullText
        · split
          · exact ih fullText
          · rw [ih]
    · exact ih fullText

/-- Closed instance of the C6 theorem: a malformed frame between two valid
lines is dropped without disturbing the rest of the stream. -/
theorem malformed_frame_skipped_witness :
    processLines (fun _ => none)
        (["noise"] ++ "data: \x7boops" :: ["data: [DONE]"]) "abc" =
      processLines (fun _ => none) (["noise"] ++ ["data: [DONE]"]) "abc" :=
  malformed_frame_skipped (fun _ => none) ["noise"] ["data: [DONE]"]
    "data: \x7boops" "abc" (by decide) (by decide) rfl

/-- C7: no internally thrown error escapes the call boundary: whenever the
try body throws any value (missing key, HTTP error status, network failure,
JSON failure, empty response, even a non-Error value), the call still returns
a result carrying a machine-readable tag and a non-empty human-readable
message. -/
theorem thrown_error_becomes_result (a : Args) (env : Env) (t : Thrown)
    (evs : List Event) (f : Bool) (h : tryBody a env = (.error t, evs, f)) :
    (generateResponse a env).result.error.isSome = true ∧
    (generateResponse a env).result.text ≠ "" := by
  unfold generateResponse
  rw [h]
  exact ⟨catchHandler_error_isSome t a.modelName (env.tCatch - env.t0),
    catchHandler_text_ne_empty t a.modelName (env.tCatch - env.t0)⟩

/-- Closed instance of C7: the missing-key throw is converted into a tagged
result with a non-empty message. -/
theorem thrown_error_becomes_result_witness :
    (generateResponse argsBadKey envAny).result.error.isSome = true ∧
    (generateResponse argsBadKey envAny).result.text ≠ "" :=
  thrown_error_becomes_result argsBadKey envAny (.err noKeyMsg) [] false rfl

/-- C8: whenever the returned result carries an error tag, the text field
holds a non-empty fallback message. -/
theorem error_tag_has_fallback_text (a : Args) (env : Env) (tag : String)
    (h : (generateResponse a env).result.error = some tag) :
    (generateResponse a env).result.text ≠ "" := by
  unfold generateResponse at h ⊢
  cases ht : tryBody a env with
  | mk exc rest =>
    cases rest with
    | mk evs f =>
      cases exc with
      | ok r =>
        rw [ht] at h
        dsimp only at h
        obtain ⟨he, -, -⟩ := tryBody_ok_shape a env r evs f ht
        rw [he] at h
        cases h
      | error t =>
        dsimp only
        exact catchHandler_text_ne_empty t a.modelName (env.tCatch - env.t0)

/-- Closed instance of C8: a result tagged with the auth category carries a
non-empty text. -/
theorem error_tag_has_fallback_text_witness :
    (generateResponse argsBadKey envAny).result.text ≠ "" :=
  error_tag_has_fallback_text argsBadKey envAny "API key not valid" (by decide)

/-- C9 (amended): on every failure path the returned duration is measured
from call start to the catch block, the point of failure; on the success
path, however, it is the value computed at line 97, from call start to just
after the response headers, so it excludes the time spent consuming the
stream or parsing the body. -/
theorem duration_header_on_success_catch_on_failure (a : Args) (env : Env) :
    ((generateResponse a env).result.error = none ∧
      (generateResponse a env).result.durationMs = env.tHeader - env.t0) ∨
    ((generateResponse a env).result.error.isSome = true ∧
      (generateResponse a env).result.durationMs = env.tCatch - env.t0) := by
  unfold generateResponse
  cases ht : tryBody a env with
  | mk exc rest =>
    cases rest with
    | mk evs f =>
      cases exc with
      | ok r =>
        obtain ⟨he, -, hd⟩ := tryBody_ok_shape a env r evs f ht
        left
        dsimp only
        exact ⟨he, hd⟩
      | error t =>
        right
        dsimp only
        exact ⟨catchHandler_error_isSome t a.modelName (env.tCatch - env.t0),
          catchHandler_durationMs t a.modelName (env.tCatch - env.t0)⟩

/-- C9 counterexample: a successful streaming call whose headers arrive at
time 5 and whose stream is consumed until time 10 reports a duration of 5,
not the elapsed wall-clock time 10 from call start to completion. -/
theorem duration_excludes_stream_time :
    (generateResponse argsStream envC9).result.durationMs
      ≠ envC9.tComplete - envC9.t0 := by
  decide

/-- C10: when the API key is absent, empty or whitespace-only, the line 39
check throws before `fetch` is reached: no HTTP request is issued and the
call returns the localized invalid-key message with the auth tag, whatever
the network would have answered. -/
theorem blank_key_short_circuits (a : Args) (env : Env)
    (h : keyProvided a.apiKey = false) :
    generateResponse a env =
      ⟨⟨"API密钥无效或已过期。请检查您的 Gemini API 密钥配置。",
        env.tCatch - env.t0, some "API key not valid"⟩, [], false⟩ := by
  have hb : tryBody a env = (.error (.err noKeyMsg), [], false) := by
    unfold tryBody
    rw [h]
    simp
  unfold generateResponse
  rw [hb]
  dsimp only
  have hinc : strIncludes noKeyMsg "API密钥" = true := by decide
  unfold catchHandler
  dsimp only
  rw [hinc]
  simp

/-- Closed instance of C10: a whitespace-only key produces the invalid-key
result without any fetch. -/
theorem blank_key_short_circuits_witness :
    generateResponse argsBadKey envAny =
      ⟨⟨"API密钥无效或已过期。请检查您的 Gemini API 密钥配置。",
        envAny.tCatch - envAny.t0, some "API key not valid"⟩, [], false⟩ :=
  blank_key_short_circuits argsBadKey envAny (by decide)

end GeminiClient
